import Mathlib

/-!
Verification of the Kubernetes discovery service (`KubernetesService.ts`).

The service's `listAllApiResourceTypes` traversal is shallowly embedded as a
pure function over an `Env` of cluster-API responses: each `await`ed client
call becomes a lookup in `Env`, and the JS array `allResources` together with
the sequence of issued API calls becomes an explicitly threaded
`TraversalState`.  Optional JS string fields become `Option String`, and the
JS truthiness tests the source performs on them become `jsTruthy`.
-/

/-- JS truthiness of an optional string (`undefined` and `""` are falsy). -/
def jsTruthy : Option String → Bool
  | none => false
  | some s => s ≠ ""

/-- JS `a || b` for an optional string `a` and a string default `b`. -/
def jsOrD (a : Option String) (b : String) : String :=
  match a with
  | some s => if s = "" then b else s
  | none => b

/-- JS `a || b` for two strings. -/
def jsOrS (a b : String) : String :=
  if a = "" then b else a

/-- JS `groupVersion.split("/")`: split on the slash character; always
returns at least one element (`"".split("/")` is `[""]`). -/
def splitSlashAux : List Char → List Char → List String
  | [], acc => [String.mk acc.reverse]
  | c :: cs, acc =>
      if c = '/' then String.mk acc.reverse :: splitSlashAux cs []
      else splitSlashAux cs (c :: acc)

def jsSplitSlash (s : String) : List String :=
  splitSlashAux s.toList []

/-- The constructor's raw parameter object (`KubernetesServiceParams`).
`clusterName` and `apiServerUrl` are `Option String` so that a missing field
and an empty string are both representable; the constructor's `!x` checks
cover both.  The source field `namespace` is called `ns` here. -/
structure KubernetesServiceParams where
  clusterName : Option String
  apiServerUrl : Option String
  ns : Option String
  token : Option String
  clientCertificate : Option String
  clientKey : Option String
  caCertificate : Option String
deriving DecidableEq, Repr

/-- The constructed service object's fields.  `ns` models the source field
`namespace` (declared `namespace?: string`, assigned `namespace || "default"`
by the constructor). -/
structure KubernetesService where
  clusterName : String
  apiServerUrl : String
  ns : Option String
  token : Option String
  clientCertificate : Option String
  clientKey : Option String
  caCertificate : Option String
deriving DecidableEq, Repr

/-- The constructor (`KubernetesService.constructor`): throws on a falsy
`clusterName` or `apiServerUrl`, otherwise stores the fields with
`this.namespace = namespace || "default"`.  It performs no network call:
its result depends on the parameters alone. -/
def mkKubernetesService (p : KubernetesServiceParams) : Except String KubernetesService :=
  if ¬ jsTruthy p.clusterName then
    Except.error "KubernetesService requires a clusterName."
  else if ¬ jsTruthy p.apiServerUrl then
    Except.error "KubernetesService requires an apiServerUrl."
  else
    Except.ok
      { clusterName := jsOrD p.clusterName ""
        apiServerUrl := jsOrD p.apiServerUrl ""
        ns := some (jsOrD p.ns "default")
        token := p.token
        clientCertificate := p.clientCertificate
        clientKey := p.clientKey
        caCertificate := p.caCertificate }

/-- The user entry of the built KubeConfig (`UserConfig`). -/
structure UserConfig where
  name : String
  token : Option String
  clientCertificateData : Option String
  clientKeyData : Option String
deriving DecidableEq, Repr

/-- The user-entry preparation in `listAllApiResourceTypes`:
`{name: "service-user"}` plus the credential if/else chain. -/
def buildUserConfig (svc : KubernetesService) : UserConfig :=
  if jsTruthy svc.token then
    { name := "service-user", token := svc.token
      clientCertificateData := none, clientKeyData := none }
  else if jsTruthy svc.clientCertificate && jsTruthy svc.clientKey then
    { name := "service-user", token := none
      clientCertificateData := svc.clientCertificate, clientKeyData := svc.clientKey }
  else
    { name := "service-user", token := none
      clientCertificateData := none, clientKeyData := none }

/-- A listed object's metadata as the traversal reads it
(`item.metadata?.namespace`, `item.metadata?.name`). -/
structure K8sItem where
  ns : Option String
  name : Option String
deriving DecidableEq, Repr

/-- One advertised resource kind (`V1APIResource`): optional own group and
version, kind, plural `name`, `namespaced` flag and the verb list
(optional, matching the source's defensive `!resource.verbs` check). -/
structure APIResource where
  group : Option String
  version : Option String
  kind : String
  name : String
  namespaced : Bool
  verbs : Option (List String)
deriving DecidableEq, Repr

/-- `V1GroupVersionForDiscovery`. -/
structure GroupVersionForDiscovery where
  groupVersion : String
deriving DecidableEq, Repr

/-- One entry of the API group list (`V1APIGroup`). -/
structure ApiGroup where
  name : String
  preferredVersion : Option GroupVersionForDiscovery
deriving DecidableEq, Repr

/-- The cluster API as the traversal consumes it: one response per call
shape.  `Except.error msg` is a thrown client error carrying `err.message`;
the `Option` layers model the source's truthiness checks on the response
(`nsList && nsList.items`, `result?.items`, `apiGroups && apiGroups.groups`).
`getAPIResources` takes no argument because the source always invokes
`coreV1Api.getAPIResources()` with none. -/
structure Env where
  listNamespace : Except String (Option (List (Option String)))
  getAPIResources : Except String (List APIResource)
  listNamespacedCustomObject :
    String → Option String → String → String → Except String (Option (List K8sItem))
  listClusterCustomObject :
    String → Option String → String → Except String (Option (List K8sItem))
  getAPIVersions : Except String (Option (List ApiGroup))

/-- The network calls the traversal can issue, recorded as a trace.
`getAPIResourcesCore` is `coreV1Api.getAPIResources()` — it carries no
group/version because the source passes none. -/
inductive ApiCall where
  | listNamespace : ApiCall
  | getAPIResourcesCore : ApiCall
  | listNamespacedCustomObject : String → Option String → String → String → ApiCall
  | listClusterCustomObject : String → Option String → String → ApiCall
  | getAPIVersions : ApiCall
deriving DecidableEq, Repr

/-- One output record (`K8sResourceInfo`): all fields optional, absent
fields are `none`.  The source field `namespace` is called `ns`. -/
structure K8sResourceInfo where
  group : Option String := none
  version : Option String := none
  kind : Option String := none
  ns : Option String := none
  name : Option String := none
  error : Option String := none
deriving DecidableEq, Repr

/-- The traversal's mutable state: the `allResources` array and the trace of
issued API calls. -/
structure TraversalState where
  records : List K8sResourceInfo
  calls : List ApiCall
deriving DecidableEq, Repr

/-- `resource.group || groupVersion.split("/")[0] || ""`. -/
def effectiveGroup (gv : String) (r : APIResource) : String :=
  jsOrD r.group (jsOrS ((jsSplitSlash gv).headD "") "")

/-- `resource.version || groupVersion.split("/")[1]` — the second piece may
be `undefined`, so the result is an `Option String`. -/
def effectiveVersion (gv : String) (r : APIResource) : Option String :=
  if jsTruthy r.version then r.version else (jsSplitSlash gv)[1]?

/-- `resource.verbs && resource.verbs.includes("list")` (the source skips
the resource when this is false). -/
def supportsList (r : APIResource) : Bool :=
  match r.verbs with
  | none => false
  | some vs => vs.contains "list"

/-- Records of one `listNamespacedCustomObject` attempt: the success items
mapped to instance records (carrying the item's own metadata, not the loop
namespace), nothing when `result?.items` is missing, one error record
(carrying the loop namespace) when the call throws. -/
def nsUnit (env : Env) (g : String) (v : Option String) (k pl ns : String) :
    List K8sResourceInfo :=
  match env.listNamespacedCustomObject g v ns pl with
  | Except.ok (some items) =>
      items.map fun it =>
        { group := some g, version := v, kind := some k, ns := it.ns, name := it.name }
  | Except.ok none => []
  | Except.error msg =>
      [{ group := some g, version := v, kind := some k, ns := some ns
         error := some ("Failed to list instances: " ++ msg) }]

/-- Records of the single `listClusterCustomObject` attempt for a
cluster-scoped kind: instance records with no namespace field, or one error
record with no namespace field. -/
def clusterUnit (env : Env) (g : String) (v : Option String) (k pl : String) :
    List K8sResourceInfo :=
  match env.listClusterCustomObject g v pl with
  | Except.ok (some items) =>
      items.map fun it =>
        { group := some g, version := v, kind := some k, name := it.name }
  | Except.ok none => []
  | Except.error msg =>
      [{ group := some g, version := v, kind := some k
         error := some ("Failed to list instances: " ++ msg) }]

/-- One iteration of the `for (const ns of namespacesToScan)` loop. -/
def stepNamespace (env : Env) (g : String) (v : Option String) (k pl : String)
    (st : TraversalState) (ns : String) : TraversalState :=
  { records := st.records ++ nsUnit env g v k pl ns
    calls := st.calls ++ [ApiCall.listNamespacedCustomObject g v ns pl] }

/-- The whole namespace loop for one namespaced kind. -/
def forNamespaces (env : Env) (g : String) (v : Option String) (k pl : String)
    (st : TraversalState) : List String → TraversalState
  | [] => st
  | ns :: rest => forNamespaces env g v k pl (stepNamespace env g v k pl st ns) rest

/-- The cluster-scoped branch for one kind. -/
def stepCluster (env : Env) (g : String) (v : Option String) (k pl : String)
    (st : TraversalState) : TraversalState :=
  { records := st.records ++ clusterUnit env g v k pl
    calls := st.calls ++ [ApiCall.listClusterCustomObject g v pl] }

/-- Processing of one advertised resource inside `processApiGroupVersion`:
skip without the `list` verb, then list per namespace or once at cluster
scope. -/
def processResource (env : Env) (nss : List String) (gv : String)
    (st : TraversalState) (r : APIResource) : TraversalState :=
  if supportsList r then
    if r.namespaced then
      forNamespaces env (effectiveGroup gv r) (effectiveVersion gv r) r.kind r.name st nss
    else
      stepCluster env (effectiveGroup gv r) (effectiveVersion gv r) r.kind r.name st
  else st

/-- The `for (const resource of apiResourceList.resources)` loop. -/
def forResources (env : Env) (nss : List String) (gv : String)
    (st : TraversalState) : List APIResource → TraversalState
  | [] => st
  | r :: rest => forResources env nss gv (processResource env nss gv st r) rest

/-- `processApiGroupVersion(groupVersion)`: issues the (unscoped)
`coreV1Api.getAPIResources()` discovery call, then processes every returned
resource; a discovery failure yields one error record and skips the kinds. -/
def processApiGroupVersion (env : Env) (nss : List String)
    (st : TraversalState) (gv : String) : TraversalState :=
  let st1 : TraversalState := { st with calls := st.calls ++ [ApiCall.getAPIResourcesCore] }
  match env.getAPIResources with
  | Except.error msg =>
      { st1 with records := st1.records ++
          [{ error := some ("Resource discovery failed for groupVersion " ++ gv ++ ": " ++ msg) }] }
  | Except.ok resources => forResources env nss gv st1 resources

/-- The `for (const group of apiGroups.groups)` loop: a group is processed
when `group.preferredVersion && group.preferredVersion.groupVersion` is
truthy, otherwise skipped silently. -/
def forGroups (env : Env) (nss : List String)
    (st : TraversalState) : List ApiGroup → TraversalState
  | [] => st
  | g :: rest =>
      let st1 := match g.preferredVersion with
        | some pv =>
            if pv.groupVersion ≠ "" then processApiGroupVersion env nss st pv.groupVersion
            else st
        | none => st
      forGroups env nss st1 rest

/-- Step 1 of the traversal, namespace resolution: the configured namespace
when truthy, otherwise the `listNamespace` call with its item/failure
handling, then the defensive empty-set check.  Returns the scan set and the
records/calls this stage produced (the result array is empty when the stage
runs). -/
def resolveNamespacesCore (nsField : Option String) (env : Env) :
    List String × TraversalState :=
  if jsTruthy nsField then
    ([jsOrD nsField ""], ({ records := [], calls := [] } : TraversalState))
  else
    let stc : TraversalState := { records := [], calls := [ApiCall.listNamespace] }
    match env.listNamespace with
    | Except.ok (some items) => (items.map (fun n => n.getD ""), stc)
    | Except.ok none => (["default"], stc)
    | Except.error msg =>
        (["default"],
          { stc with records := stc.records ++
              [{ error := some ("Namespace discovery failed (fallback to \x27default\x27): " ++ msg) }] })

def resolveNamespaces (nsField : Option String) (env : Env) :
    List String × TraversalState :=
  let p := resolveNamespacesCore nsField env
  if p.1.isEmpty then (["default"], p.2) else p

/-- `listAllApiResourceTypes`: namespace resolution, the unconditional core
`"v1"` pass, then the `getAPIVersions` group enumeration with each preferred
version processed, a missing group list tolerated and a failure downgraded
to one error record.  Total function: no failure propagates. -/
def listAllApiResourceTypes (svc : KubernetesService) (env : Env) : TraversalState :=
  let r := resolveNamespaces svc.ns env
  let nss := r.1
  let st1 := r.2
  let st2 := processApiGroupVersion env nss st1 "v1"
  let st3 : TraversalState := { st2 with calls := st2.calls ++ [ApiCall.getAPIVersions] }
  match env.getAPIVersions with
  | Except.ok (some groups) => forGroups env nss st3 groups
  | Except.ok none => st3
  | Except.error msg =>
      { st3 with records := st3.records ++
          [{ error := some ("Failed to get API group list: " ++ msg) }] }

/-! ### Concrete fixtures used by the closed theorems -/

/-- A config with `namespace` absent and valid required fields. -/
def paramsNoNamespace : KubernetesServiceParams :=
  { clusterName := some "test-cluster", apiServerUrl := some "https://example:6443"
    ns := none, token := none, clientCertificate := none, clientKey := none
    caCertificate := none }

/-- The service the constructor builds from `paramsNoNamespace`. -/
def svcNoNamespace : KubernetesService :=
  { clusterName := "test-cluster", apiServerUrl := "https://example:6443"
    ns := some "default", token := none, clientCertificate := none, clientKey := none
    caCertificate := none }

/-- A core resource advertising no group/version of its own. -/
def podResource : APIResource :=
  { group := none, version := none, kind := "Pod", name := "pods"
    namespaced := true, verbs := some ["get", "list", "watch"] }

/-- An environment whose namespace-list call succeeds with two namespaces. -/
def envTwoNamespaces : Env :=
  { listNamespace := Except.ok (some [some "ns-a", some "ns-b"])
    getAPIResources := Except.ok []
    listNamespacedCustomObject := fun _ _ _ _ => Except.error "offline"
    listClusterCustomObject := fun _ _ _ => Except.error "offline"
    getAPIVersions := Except.ok none }

/-- An environment whose namespace-list call fails. -/
def envNsFail : Env :=
  { listNamespace := Except.error "connection refused"
    getAPIResources := Except.ok []
    listNamespacedCustomObject := fun _ _ _ _ => Except.error "offline"
    listClusterCustomObject := fun _ _ _ => Except.error "offline"
    getAPIVersions := Except.ok none }

/-- An environment whose (core) discovery call returns one Pod kind and whose
namespaced listing returns one item named `web` in `default`. -/
def envOnePod : Env :=
  { listNamespace := Except.ok (some [some "default"])
    getAPIResources := Except.ok [podResource]
    listNamespacedCustomObject := fun _ _ _ _ =>
      Except.ok (some [{ ns := some "default", name := some "web" }])
    listClusterCustomObject := fun _ _ _ => Except.error "offline"
    getAPIVersions := Except.ok none }

/-- An environment whose group-list call fails. -/
def envGroupListFail : Env :=
  { listNamespace := Except.ok (some [some "default"])
    getAPIResources := Except.ok []
    listNamespacedCustomObject := fun _ _ _ _ => Except.error "offline"
    listClusterCustomObject := fun _ _ _ => Except.error "offline"
    getAPIVersions := Except.error "boom" }

/-! ### Decomposition lemmas: each loop appends, in processing order, the
records of its independent units of work. -/

/-- In-order concatenation of per-element record lists. -/
def catMap (f : α → List β) : List α → List β
  | [] => []
  | a :: l => f a ++ catMap f l

lemma forNamespaces_records (env : Env) (g : String) (v : Option String) (k pl : String) :
    ∀ (nss : List String) (st : TraversalState),
      (forNamespaces env g v k pl st nss).records
        = st.records ++ catMap (nsUnit env g v k pl) nss
  | [], st => by simp [forNamespaces, catMap]
  | ns :: rest, st => by
      show (forNamespaces env g v k pl (stepNamespace env g v k pl st ns) rest).records = _
      rw [forNamespaces_records env g v k pl rest]
      simp [stepNamespace, catMap]

lemma forNamespaces_calls (env : Env) (g : String) (v : Option String) (k pl : String) :
    ∀ (nss : List String) (st : TraversalState),
      (forNamespaces env g v k pl st nss).calls
        = st.calls ++ nss.map (fun ns => ApiCall.listNamespacedCustomObject g v ns pl)
  | [], st => by simp [forNamespaces]
  | ns :: rest, st => by
      show (forNamespaces env g v k pl (stepNamespace env g v k pl st ns) rest).calls = _
      rw [forNamespaces_calls env g v k pl rest]
      simp [stepNamespace]

/-- The records one resource kind contributes. -/
def resourceUnit (env : Env) (nss : List String) (gv : String) (r : APIResource) :
    List K8sResourceInfo :=
  if supportsList r then
    if r.namespaced then
      catMap (nsUnit env (effectiveGroup gv r) (effectiveVersion gv r) r.kind r.name) nss
    else
      clusterUnit env (effectiveGroup gv r) (effectiveVersion gv r) r.kind r.name
  else []

lemma processResource_records (env : Env) (nss : List String) (gv : String)
    (st : TraversalState) (r : APIResource) :
    (processResource env nss gv st r).records = st.records ++ resourceUnit env nss gv r := by
  unfold processResource resourceUnit
  by_cases h1 : supportsList r
  · by_cases h2 : r.namespaced <;> simp [h1, h2, forNamespaces_records, stepCluster]
  · simp [h1]

lemma forResources_records (env : Env) (nss : List String) (gv : String) :
    ∀ (rs : List APIResource) (st : TraversalState),
      (forResources env nss gv st rs).records
        = st.records ++ catMap (resourceUnit env nss gv) rs
  | [], st => by simp [forResources, catMap]
  | r :: rest, st => by
      show (forResources env nss gv (processResource env nss gv st r) rest).records = _
      rw [forResources_records env nss gv rest]
      simp [processResource_records, catMap]

/-- The records one whole group/version pass contributes. -/
def gvUnit (env : Env) (nss : List String) (gv : String) : List K8sResourceInfo :=
  match env.getAPIResources with
  | Except.error msg =>
      [{ error := some ("Resource discovery failed for groupVersion " ++ gv ++ ": " ++ msg) }]
  | Except.ok resources => catMap (resourceUnit env nss gv) resources

lemma processApiGroupVersion_records (env : Env) (nss : List String)
    (st : TraversalState) (gv : String) :
    (processApiGroupVersion env nss st gv).records = st.records ++ gvUnit env nss gv := by
  unfold processApiGroupVersion gvUnit
  cases h : env.getAPIResources with
  | error msg => simp
  | ok resources => simp [forResources_records]

/-- The records one entry of the group list contributes. -/
def groupUnit (env : Env) (nss : List String) (g : ApiGroup) : List K8sResourceInfo :=
  match g.preferredVersion with
  | some pv => if pv.groupVersion ≠ "" then gvUnit env nss pv.groupVersion else []
  | none => []

lemma forGroups_records (env : Env) (nss : List String) :
    ∀ (gs : List ApiGroup) (st : TraversalState),
      (forGroups env nss st gs).records = st.records ++ catMap (groupUnit env nss) gs
  | [], st => by simp [forGroups, catMap]
  | g :: rest, st => by
      show (forGroups env nss _ rest).records = _
      rw [forGroups_records env nss rest]
      cases h : g.preferredVersion with
      | none => simp [groupUnit, h, catMap]
      | some pv =>
          by_cases hgv : pv.groupVersion ≠ "" <;>
            simp [groupUnit, h, hgv, catMap, processApiGroupVersion_records]

/-- The records of the whole post-core phase (the group-list call and the
per-group passes). -/
def groupStageUnit (env : Env) (nss : List String) : List K8sResourceInfo :=
  match env.getAPIVersions with
  | Except.ok (some groups) => catMap (groupUnit env nss) groups
  | Except.ok none => []
  | Except.error msg => [{ error := some ("Failed to get API group list: " ++ msg) }]

/-- The full traversal's result array, decomposed into the namespace stage's
records, then the unconditional core `"v1"` pass, then the group stage — in
that order, for every environment. -/
lemma listAllApiResourceTypes_records_eq (svc : KubernetesService) (env : Env) :
    (listAllApiResourceTypes svc env).records
      = (resolveNamespaces svc.ns env).2.records
        ++ gvUnit env (resolveNamespaces svc.ns env).1 "v1"
        ++ groupStageUnit env (resolveNamespaces svc.ns env).1 := by
  unfold listAllApiResourceTypes groupStageUnit
  cases h : env.getAPIVersions with
  | error msg => simp [h, processApiGroupVersion_records]
  | ok o =>
      cases o with
      | none => simp [h, processApiGroupVersion_records]
      | some groups => simp [h, forGroups_records, processApiGroupVersion_records]

/-! ### Shape of the records each unit produces -/

lemma catMap_forall {P : β → Prop} (f : α → List β) (l : List α)
    (h : ∀ a ∈ l, ∀ b ∈ f a, P b) : ∀ b ∈ catMap f l, P b := by
  induction l with
  | nil => intro b hb; simp [catMap] at hb
  | cons a l ih =>
      intro b hb
      rcases List.mem_append.1 hb with hb | hb
      · exact h a (by simp) b hb
      · exact ih (fun a ha => h a (by simp [ha])) b hb

lemma nsUnit_shape (env : Env) (g : String) (v : Option String) (k pl ns : String) :
    ∀ r ∈ nsUnit env g v k pl ns, r.name = none ∨ r.error = none := by
  intro r hr
  unfold nsUnit at hr
  cases h : env.listNamespacedCustomObject g v ns pl with
  | error msg => rw [h] at hr; simp at hr; subst hr; left; rfl
  | ok o =>
      cases o with
      | none => rw [h] at hr; simp at hr
      | some items =>
          rw [h] at hr; simp at hr
          obtain ⟨it, _, rfl⟩ := hr
          right; rfl

lemma clusterUnit_shape (env : Env) (g : String) (v : Option String) (k pl : String) :
    ∀ r ∈ clusterUnit env g v k pl, r.name = none ∨ r.error = none := by
  intro r hr
  unfold clusterUnit at hr
  cases h : env.listClusterCustomObject g v pl with
  | error msg => rw [h] at hr; simp at hr; subst hr; left; rfl
  | ok o =>
      cases o with
      | none => rw [h] at hr; simp at hr
      | some items =>
          rw [h] at hr; simp at hr
          obtain ⟨it, _, rfl⟩ := hr
          right; rfl

lemma resourceUnit_shape (env : Env) (nss : List String) (gv : String) (r : APIResource) :
    ∀ x ∈ resourceUnit env nss gv r, x.name = none ∨ x.error = none := by
  unfold resourceUnit
  by_cases h1 : supportsList r
  · by_cases h2 : r.namespaced
    · simp only [h1, h2, if_true]
      exact catMap_forall _ _ (fun ns _ => nsUnit_shape env _ _ _ _ ns)
    · simp only [h1, h2, if_true, if_false]
      exact clusterUnit_shape env _ _ _ _
  · intro x hx; simp [h1] at hx

lemma gvUnit_shape (env : Env) (nss : List String) (gv : String) :
    ∀ r ∈ gvUnit env nss gv, r.name = none ∨ r.error = none := by
  unfold gvUnit
  cases h : env.getAPIResources with
  | error msg => intro r hr; simp at hr; subst hr; left; rfl
  | ok resources => exact catMap_forall _ _ (fun a _ => resourceUnit_shape env nss gv a)

lemma groupUnit_shape (env : Env) (nss : List String) (g : ApiGroup) :
    ∀ r ∈ groupUnit env nss g, r.name = none ∨ r.error = none := by
  intro r hr
  unfold groupUnit at hr
  split at hr
  · split at hr
    · exact gvUnit_shape env nss _ r hr
    · simp at hr
  · simp at hr

lemma groupStageUnit_shape (env : Env) (nss : List String) :
    ∀ r ∈ groupStageUnit env nss, r.name = none ∨ r.error = none := by
  unfold groupStageUnit
  cases h : env.getAPIVersions with
  | error msg => intro r hr; simp at hr; subst hr; left; rfl
  | ok o =>
      cases o with
      | none => intro r hr; simp at hr
      | some groups => exact catMap_forall _ _ (fun a _ => groupUnit_shape env nss a)

lemma resolveNamespaces_snd (nsField : Option String) (env : Env) :
    (resolveNamespaces nsField env).2 = (resolveNamespacesCore nsField env).2 := by
  unfold resolveNamespaces
  by_cases h : (resolveNamespacesCore nsField env).1.isEmpty <;> simp [h]

lemma resolveNamespaces_records_shape (nsField : Option String) (env : Env) :
    ∀ r ∈ (resolveNamespaces nsField env).2.records, r.name = none := by
  rw [resolveNamespaces_snd]
  unfold resolveNamespacesCore
  by_cases hn : jsTruthy nsField
  · intro r hr; simp [hn] at hr
  · cases h : env.listNamespace with
    | error msg =>
        intro r hr
        simp [hn, h] at hr
        subst hr; rfl
    | ok o =>
        cases o with
        | none => intro r hr; simp [hn, h] at hr
        | some items => intro r hr; simp [hn, h] at hr

/-! ### The claims -/

/-- Claim C1.  The claim says a config with `namespace` absent triggers
namespace auto-discovery and that a namespace list of `["ns-a","ns-b"]`
becomes the scan set.  The code does the opposite: the constructor assigns
`this.namespace = namespace || "default"`, so the stored namespace is always
truthy, the `listNamespace` call is never issued and the scan set is
`["default"]` even when the environment would have answered
`["ns-a","ns-b"]`.  This theorem evaluates the code at that failing input. -/
theorem absentNamespace_noAutoDiscovery :
    mkKubernetesService paramsNoNamespace = Except.ok svcNoNamespace
    ∧ (resolveNamespaces svcNoNamespace.ns envTwoNamespaces).1 = ["default"]
    ∧ ApiCall.listNamespace ∉ (listAllApiResourceTypes svcNoNamespace envTwoNamespaces).calls :=
  ⟨rfl, by decide, by decide⟩

/-- Claim C2.  The claim says the kind-discovery call of each group/version
pass is issued against that group/version's own resource-discovery
endpoint.  The code always invokes `coreV1Api.getAPIResources()` — the core
`v1` endpoint, with no group/version argument.  Evaluated at the `"apps/v1"`
pass: the only discovery call issued is the unscoped core call, and the
kinds enumerated are exactly those of the core response (here `Pod`),
re-labelled with group `apps`. -/
theorem appsPass_usesCoreDiscovery :
    (processApiGroupVersion envOnePod ["default"] ⟨[], []⟩ "apps/v1").calls =
      [ApiCall.getAPIResourcesCore,
       ApiCall.listNamespacedCustomObject "apps" (some "v1") "default" "pods"]
    ∧ (processApiGroupVersion envOnePod ["default"] ⟨[], []⟩ "apps/v1").records =
      [{ group := some "apps", version := some "v1", kind := some "Pod",
         ns := some "default", name := some "web" }] :=
  ⟨by decide, by decide⟩

/-- Claim C3.  The claim says a core-pass resource with no advertised
group/version is recorded with group `""` and version `"v1"`.  The code
computes `resource.group || "v1".split("/")[0] || ""`, which is `"v1"`, and
`resource.version || "v1".split("/")[1]`, which is `undefined` — so the
records carry group `"v1"` and no version at all. -/
theorem corePass_fallbackGroupVersion :
    effectiveGroup "v1" podResource = "v1"
    ∧ effectiveVersion "v1" podResource = none
    ∧ (processApiGroupVersion envOnePod ["default"] ⟨[], []⟩ "v1").records =
      [{ group := some "v1", version := none, kind := some "Pod",
         ns := some "default", name := some "web" }] :=
  ⟨by decide, by decide, by decide⟩

/-- Claim C4.  Construction succeeds exactly when `clusterName` and
`apiServerUrl` are both truthy (present and non-empty); otherwise it throws.
`mkKubernetesService` consumes no `Env`, so no network activity can precede
the check, and the failing branch returns an error with no service value, so
no partial object is constructible. -/
theorem mkKubernetesService_ok_iff (p : KubernetesServiceParams) :
    (∃ svc, mkKubernetesService p = Except.ok svc)
      ↔ (jsTruthy p.clusterName = true ∧ jsTruthy p.apiServerUrl = true) := by
  unfold mkKubernetesService
  by_cases h1 : jsTruthy p.clusterName <;> by_cases h2 : jsTruthy p.apiServerUrl <;>
    simp [h1, h2]

/-- Claim C5.  The user entry's name is the fixed string `"service-user"`
for every config, and its credentials follow the precedence: bearer token if
truthy; otherwise client certificate plus key if both truthy; otherwise no
credentials. -/
theorem buildUserConfig_spec (svc : KubernetesService) :
    (buildUserConfig svc).name = "service-user"
    ∧ (jsTruthy svc.token = true →
        buildUserConfig svc =
          { name := "service-user", token := svc.token
            clientCertificateData := none, clientKeyData := none })
    ∧ (jsTruthy svc.token = false →
        (jsTruthy svc.clientCertificate && jsTruthy svc.clientKey) = true →
        buildUserConfig svc =
          { name := "service-user", token := none
            clientCertificateData := svc.clientCertificate
            clientKeyData := svc.clientKey })
    ∧ (jsTruthy svc.token = false →
        (jsTruthy svc.clientCertificate && jsTruthy svc.clientKey) = false →
        buildUserConfig svc =
          { name := "service-user", token := none
            clientCertificateData := none, clientKeyData := none }) := by
  unfold buildUserConfig
  by_cases h1 : jsTruthy svc.token <;>
    by_cases h2 : jsTruthy svc.clientCertificate && jsTruthy svc.clientKey <;>
      simp [h1, h2]

/-- A config carrying a bearer token, for the C5 witness. -/
def svcWithToken : KubernetesService :=
  { clusterName := "c", apiServerUrl := "u", ns := some "default"
    token := some "tok", clientCertificate := none, clientKey := none
    caCertificate := none }

/-- Witness for C5: at a concrete config with a token, the user entry is the
fixed name with token auth. -/
theorem buildUserConfig_spec_witness :
    buildUserConfig svcWithToken =
      { name := "service-user", token := some "tok"
        clientCertificateData := none, clientKeyData := none } :=
  (buildUserConfig_spec svcWithToken).2.1 (by decide)

/-- Claim C6.  The claim says that with `namespace` absent and a failing
namespace-list call, the result holds exactly one namespace-discovery error
record and the scan set is `["default"]`.  In the code the constructor's
`namespace || "default"` default means the namespace-list call is never
issued for such a config: the scan set is `["default"]` but the result holds
zero error records.  Evaluated at that failing input. -/
theorem absentNamespace_nsListFailure_noRecord :
    mkKubernetesService paramsNoNamespace = Except.ok svcNoNamespace
    ∧ (resolveNamespaces svcNoNamespace.ns envNsFail).1 = ["default"]
    ∧ (listAllApiResourceTypes svcNoNamespace envNsFail).records = []
    ∧ ApiCall.listNamespace ∉ (listAllApiResourceTypes svcNoNamespace envNsFail).calls :=
  ⟨rfl, by decide, by decide, by decide⟩

/-- Claim C7.  The core `"v1"` pass runs unconditionally before the group
list is consulted; when the group-list call fails, the returned sequence is
exactly the namespace-stage records, then every record of the core pass,
then one error record for the group-list failure — and the traversal
returns it rather than throwing (it is a total function). -/
theorem groupListFailure_corePreserved (svc : KubernetesService) (env : Env) (msg : String)
    (h : env.getAPIVersions = Except.error msg) :
    (listAllApiResourceTypes svc env).records
      = (resolveNamespaces svc.ns env).2.records
        ++ gvUnit env (resolveNamespaces svc.ns env).1 "v1"
        ++ [{ error := some ("Failed to get API group list: " ++ msg) }] := by
  rw [listAllApiResourceTypes_records_eq]
  unfold groupStageUnit
  rw [h]

/-- Witness for C7 at a concrete service and environment whose group-list
call fails with `"boom"`. -/
theorem groupListFailure_corePreserved_witness :
    (listAllApiResourceTypes svcNoNamespace envGroupListFail).records
      = [{ error := some "Failed to get API group list: boom" }] :=
  (groupListFailure_corePreserved svcNoNamespace envGroupListFail "boom" rfl).trans (by decide)

/-- Claim C8.  For a namespaced kind, a failing per-namespace listing call
contributes exactly one error record carrying the kind's group/version/kind
and that namespace; the namespace loop still visits every namespace of the
scan set in order (one listing call each, records concatenated in
processing order after the records already appended), and the resource loop
likewise appends every kind's records independently — so one namespace's
failure never suppresses another namespace's or kind's results. -/
theorem namespacedFailure_isolation (env : Env) (g : String) (v : Option String)
    (k pl : String) (nss : List String) (ns msg : String) (gv : String)
    (_hmem : ns ∈ nss)
    (hfail : env.listNamespacedCustomObject g v ns pl = Except.error msg) :
    nsUnit env g v k pl ns
      = [{ group := some g, version := v, kind := some k, ns := some ns
           error := some ("Failed to list instances: " ++ msg) }]
    ∧ (∀ st : TraversalState,
        (forNamespaces env g v k pl st nss).records
            = st.records ++ catMap (nsUnit env g v k pl) nss
        ∧ (forNamespaces env g v k pl st nss).calls
            = st.calls ++ nss.map fun n => ApiCall.listNamespacedCustomObject g v n pl)
    ∧ (∀ (st : TraversalState) (rs : List APIResource),
        (forResources env nss gv st rs).records
          = st.records ++ catMap (resourceUnit env nss gv) rs) := by
  refine ⟨?_, fun st => ⟨forNamespaces_records env g v k pl nss st,
    forNamespaces_calls env g v k pl nss st⟩,
    fun st rs => forResources_records env nss gv rs st⟩
  unfold nsUnit
  rw [hfail]

/-- Witness for C8: at a concrete kind, scan set and failing namespace, the
failing namespace contributes exactly its one scoped error record. -/
theorem namespacedFailure_isolation_witness :
    nsUnit envTwoNamespaces "" (some "v1") "Pod" "pods" "ns-a"
      = [{ group := some "", version := some "v1", kind := some "Pod", ns := some "ns-a"
           error := some "Failed to list instances: offline" }] :=
  (namespacedFailure_isolation envTwoNamespaces "" (some "v1") "Pod" "pods"
    ["ns-a", "ns-b"] "ns-a" "offline" "v1" (by decide) rfl).1

/-- Claim C9.  A cluster-scoped listable kind is processed independently of
the resolved scan set, issues exactly one cluster-level listing call, and
every record it contributes — each instance record on success, the single
error record on failure — carries no namespace field. -/
theorem clusterScoped_oneCall_noNamespace (env : Env) (nss nss' : List String)
    (gv : String) (st : TraversalState) (r : APIResource)
    (hl : supportsList r = true) (hn : r.namespaced = false) :
    processResource env nss gv st r = processResource env nss' gv st r
    ∧ (processResource env nss gv st r).calls
        = st.calls ++ [ApiCall.listClusterCustomObject (effectiveGroup gv r)
            (effectiveVersion gv r) r.name]
    ∧ (processResource env nss gv st r).records
        = st.records ++ clusterUnit env (effectiveGroup gv r) (effectiveVersion gv r)
            r.kind r.name
    ∧ (∀ rec ∈ clusterUnit env (effectiveGroup gv r) (effectiveVersion gv r) r.kind r.name,
        rec.ns = none)
    ∧ (∀ msg, env.listClusterCustomObject (effectiveGroup gv r) (effectiveVersion gv r) r.name
          = Except.error msg →
        clusterUnit env (effectiveGroup gv r) (effectiveVersion gv r) r.kind r.name
          = [{ group := some (effectiveGroup gv r), version := effectiveVersion gv r
               kind := some r.kind
               error := some ("Failed to list instances: " ++ msg) }]) := by
  refine ⟨?_, ?_, ?_, ?_, ?_⟩
  · unfold processResource
    simp [hl, hn]
  · unfold processResource
    simp [hl, hn, stepCluster]
  · unfold processResource
    simp [hl, hn, stepCluster]
  · intro rec hrec
    unfold clusterUnit at hrec
    cases hc : env.listClusterCustomObject (effectiveGroup gv r) (effectiveVersion gv r) r.name with
    | error msg => rw [hc] at hrec; simp at hrec; subst hrec; rfl
    | ok o =>
        cases o with
        | none => rw [hc] at hrec; simp at hrec
        | some items =>
            rw [hc] at hrec; simp at hrec
            obtain ⟨it, _, rfl⟩ := hrec
            rfl
  · intro msg hmsg
    unfold clusterUnit
    rw [hmsg]

/-- A cluster-scoped core resource, for the C9 witness. -/
def nodeResource : APIResource :=
  { group := none, version := none, kind := "Node", name := "nodes"
    namespaced := false, verbs := some ["get", "list"] }

/-- Witness for C9: at a concrete cluster-scoped kind and two different scan
sets, exactly one cluster-level call is issued. -/
theorem clusterScoped_oneCall_noNamespace_witness :
    (processResource envOnePod ["ns-a", "ns-b"] "v1" ⟨[], []⟩ nodeResource).calls
      = [ApiCall.listClusterCustomObject "v1" none "nodes"] :=
  ((clusterScoped_oneCall_noNamespace envOnePod ["ns-a", "ns-b"] ["default"] "v1"
    ⟨[], []⟩ nodeResource (by decide) rfl).2.1).trans (by decide)

/-- Claim C10.  Every record the traversal returns carries at most one of
`name` and `error`: records pushed on a listing success carry no error
message, and every error record is pushed with no resource name. -/
theorem records_shape_unambiguous (svc : KubernetesService) (env : Env)
    (r : K8sResourceInfo) (h : r ∈ (listAllApiResourceTypes svc env).records) :
    r.name = none ∨ r.error = none := by
  rw [listAllApiResourceTypes_records_eq] at h
  rcases List.mem_append.1 h with h1 | h1
  · rcases List.mem_append.1 h1 with h2 | h2
    · exact Or.inl (resolveNamespaces_records_shape svc.ns env r h2)
    · exact gvUnit_shape env _ "v1" r h2
  · exact groupStageUnit_shape env _ r h1

/-- Witness for C10: membership discharged at a concrete traversal result
holding one error record. -/
theorem records_shape_unambiguous_witness :
    ({ error := some "Failed to get API group list: boom" } : K8sResourceInfo).name = none
    ∨ ({ error := some "Failed to get API group list: boom" } : K8sResourceInfo).error = none :=
  records_shape_unambiguous svcNoNamespace envGroupListFail _ (by decide)
